import Mathlib

/-!
Verification of the dojango form/widget glue layer.

This file gives a shallow embedding of the two non-trivial components of the
repository:

* `dojango/forms/models.py`: the ordered model-field → form-field mapping
  table `MODEL_TO_FORM_FIELD_MAP` and the dispatcher `formfield_function`;
* `dojango/forms/widgets.py`: the attribute mixer `DojoWidgetMixin`, i.e.
  `_mixin_attr` (dotted-path nested merge with date/time serialization) and
  `build_attrs` (allow-listed mixing of extra field attributes, removal of the
  consumed bundle, and boolean encoding of the final bag).

Python dictionaries are embedded as association lists with unique keys kept in
insertion order (`dictGet` / `dictSet` / `dictDel` below mirror `d[k]`,
`d[k] = v` and `del d[k]`); Python values occurring in widget attribute bags
are embedded as the inductive `AttrValue`.  Code that can raise a Python
exception (attribute access on a non-dictionary while walking a dotted path)
is embedded in `Except String`.  The process-wide mutation of the class-level
`default_field_attr_map` performed by `build_attrs` is made explicit by
threading a `MixState` value through the call.
-/

/-- Model of a Python `datetime.date` value (year, month, day). -/
structure PyDate where
  year : Nat
  month : Nat
  day : Nat
deriving DecidableEq, Repr

/-- Model of a Python `datetime.time` value (hour, minute, second; the code
under verification never manipulates microseconds). -/
structure PyTime where
  hour : Nat
  minute : Nat
  second : Nat
deriving DecidableEq, Repr

/-- Model of a Python `datetime.datetime` value. -/
structure PyDateTime where
  date : PyDate
  time : PyTime
deriving DecidableEq, Repr

/-- Values that can occur in a widget attribute dictionary: strings, integers,
booleans, date/time objects, `None`, and nested dictionaries (used for dotted
attribute paths such as `constraints.min`). -/
inductive AttrValue : Type where
  | vstr (s : String)
  | vint (n : Int)
  | vbool (b : Bool)
  | vdate (d : PyDate)
  | vtime (t : PyTime)
  | vdatetime (dt : PyDateTime)
  | vnone
  | vdict (entries : List (String × AttrValue))

/-- A widget attribute bag: a Python dict from attribute name to value,
embedded as an association list in insertion order. -/
abbrev AttrDict := List (String × AttrValue)

/-- Python `d[k]` / `d.get(k)`: first (and, for dicts, only) binding of `k`. -/
def dictGet {α : Type} : List (String × α) → String → Option α
  | [], _ => none
  | (k', v) :: rest, k => if k' = k then some v else dictGet rest k

/-- Python `d[k] = v`: replace the binding of `k` in place if present,
otherwise append it. -/
def dictSet {α : Type} : List (String × α) → String → α → List (String × α)
  | [], k, v => [(k, v)]
  | (k', v') :: rest, k, v =>
      if k' = k then (k, v) :: rest else (k', v') :: dictSet rest k v

/-- Python `del d[k]`: remove the binding of `k`. -/
def dictDel {α : Type} (d : List (String × α)) (k : String) : List (String × α) :=
  d.filter (fun kv => kv.1 ≠ k)

/-- Python `d.update(e)`: set every binding of `e` into `d`, in order. -/
def pyUpdate {α : Type} (d e : List (String × α)) : List (String × α) :=
  e.foldl (fun acc kv => dictSet acc kv.1 kv.2) d

/-- Python `d.get(k, None) is not None` collapses an absent key and a stored
`None` into the same answer; `pyGet` returns `none` in both situations. -/
def pyGet (d : AttrDict) (k : String) : Option AttrValue :=
  match dictGet d k with
  | some .vnone => none
  | o => o

/-- Python truthiness (`if value:`) of an attribute value, as in Python 2:
empty strings, zero, `False`, `None`, empty dicts and midnight times are
falsy. -/
def truthy : AttrValue → Bool
  | .vstr s => !s.isEmpty
  | .vint n => n != 0
  | .vbool b => b
  | .vdate _ => true
  | .vtime t => !(t.hour == 0 && t.minute == 0 && t.second == 0)
  | .vdatetime _ => true
  | .vnone => false
  | .vdict d => !d.isEmpty

/-- Truthiness of an optional lookup result (`d.get(k, False)` then `if _:`). -/
def truthyOpt : Option AttrValue → Bool
  | some v => truthy v
  | none => false

/-- Helper for `pySplitDot`: walk the characters, cutting at each dot. -/
def splitDotAux : List Char → List Char → List String
  | [], acc => [String.mk acc.reverse]
  | c :: rest, acc =>
      if c = '.' then String.mk acc.reverse :: splitDotAux rest []
      else splitDotAux rest (c :: acc)

/-- Model of Python `key.split(".")` (never returns an empty list; an empty
string splits to `[""]`). -/
def pySplitDot (s : String) : List String :=
  splitDotAux s.data []

/-- Model of Python `s.replace(" ", "T")` for the single-character pattern used
in `_mixin_attr` (see `dojo.date.stamp`). -/
def replaceSpaceT (s : String) : String :=
  String.mk (s.data.map (fun c => if c = ' ' then 'T' else c))

/-- Zero-padded two-digit rendering, as Python `str` / `strftime` produce for
months, days, hours, minutes and seconds. -/
def pad2 (n : Nat) : String :=
  if n < 10 then "0" ++ toString n else toString n

/-- Zero-padded four-digit rendering of a year. -/
def pad4 (n : Nat) : String :=
  if n < 10 then "000" ++ toString n
  else if n < 100 then "00" ++ toString n
  else if n < 1000 then "0" ++ toString n
  else toString n

/-- Python `str(date)` / `strftime("%Y-%m-%d")`: `YYYY-MM-DD`. -/
def pyDateStr (d : PyDate) : String :=
  pad4 d.year ++ "-" ++ pad2 d.month ++ "-" ++ pad2 d.day

/-- Python `str(time)` / `strftime("%H:%M:%S")`: `HH:MM:SS`. -/
def pyTimeStr (t : PyTime) : String :=
  pad2 t.hour ++ ":" ++ pad2 t.minute ++ ":" ++ pad2 t.second

/-- Python `str(datetime)`: `YYYY-MM-DD HH:MM:SS`. -/
def pyDateTimeStr (dt : PyDateTime) : String :=
  pyDateStr dt.date ++ " " ++ pyTimeStr dt.time

/-- The widget classes of `dojango/forms/widgets.py` that the claims exercise.
Each constructor stands for one Python class of the file. -/
inductive WidgetClass : Type where
  | Textarea
  | TextInput
  | DateInput
  | TimeInput
  | DateInputAnim
  | Select
  | RatingInput
  | NumberTextInput
  | NumberSpinnerInput
deriving DecidableEq, Repr

/-- Ancestor list (the class itself followed by its bases) of each embedded
widget class, read off the `class` headers of `widgets.py`:
`DateInput(TextInput)`, `TimeInput(TextInput)`, `DateInputAnim(DateInput)`,
`RatingInput(TextInput)`, `NumberTextInput(TextInput)`,
`NumberSpinnerInput(NumberTextInput)`; `Textarea` and `Select` descend only
from Django widgets. -/
def widgetAncestors : WidgetClass → List WidgetClass
  | .Textarea => [.Textarea]
  | .TextInput => [.TextInput]
  | .DateInput => [.DateInput, .TextInput]
  | .TimeInput => [.TimeInput, .TextInput]
  | .DateInputAnim => [.DateInputAnim, .DateInput, .TextInput]
  | .Select => [.Select]
  | .RatingInput => [.RatingInput, .TextInput]
  | .NumberTextInput => [.NumberTextInput, .TextInput]
  | .NumberSpinnerInput => [.NumberSpinnerInput, .NumberTextInput, .TextInput]

/-- Python `isinstance(self, parent)` for widget instances. -/
def widgetIsSubclass (cls parent : WidgetClass) : Bool :=
  (widgetAncestors cls).contains parent

/-- The class attribute `dojo_type` of each embedded widget class (source:
`widgets.py`; a `None` value is falsy and adds no `dojoType` attribute). -/
def dojo_type : WidgetClass → Option String
  | .Textarea => some "dijit.form.Textarea"
  | .TextInput => some "dijit.form.TextBox"
  | .DateInput => some "dijit.form.DateTextBox"
  | .TimeInput => some "dijit.form.TimeTextBox"
  | .DateInputAnim => some "dojox.form.DateTextBox"
  | .Select => some "dijit.form.FilteringSelect"
  | .RatingInput => some "dojox.form.Rating"
  | .NumberTextInput => some "dijit.form.NumberTextBox"
  | .NumberSpinnerInput => some "dijit.form.NumberSpinner"

/-- The class attribute `valid_extra_attrs` of each embedded widget class
(inherited where a subclass does not redeclare it). -/
def valid_extra_attrs : WidgetClass → List String
  | .Textarea => []
  | .TextInput => ["max_length"]
  | .DateInput => ["required", "help_text", "min_value", "max_value"]
  | .TimeInput => ["required", "help_text", "min_value", "max_value"]
  | .DateInputAnim => ["required", "help_text", "min_value", "max_value"]
  | .Select => ["required", "help_text"]
  | .RatingInput => ["max_value"]
  | .NumberTextInput => ["min_value", "max_value", "required", "help_text", "decimal_places"]
  | .NumberSpinnerInput => ["min_value", "max_value", "required", "help_text", "decimal_places"]

/-- The class attribute `field_attr_map` (per-class override of the default
field-attribute map); only `RatingInput` declares one. -/
def field_attr_map : WidgetClass → List (String × String)
  | .RatingInput => [("max_value", "numStars")]
  | _ => []

/-- The initial contents of `DojoWidgetMixin.default_field_attr_map`. -/
def default_field_attr_map_init : List (String × String) :=
  [ ("required", "required"),
    ("help_text", "promptMessage"),
    ("min_value", "constraints.min"),
    ("max_value", "constraints.max"),
    ("max_length", "maxlength"),
    ("decimal_places", "constraints.places"),
    ("js_regex", "regExp"),
    ("multiple", "multiple") ]

/-- The mutable state shared by all widgets: the class-level dictionary
`DojoWidgetMixin.default_field_attr_map`, which `build_attrs` updates in
place. -/
structure MixState where
  default_field_attr_map : List (String × String)
deriving Repr

/-- The state at interpreter start-up. -/
def initMixState : MixState :=
  ⟨default_field_attr_map_init⟩

/-- Value conversion performed by `_mixin_attr` just before storing at the
terminal path segment: a `datetime` is rendered by the widget-dependent
branches and then `str(value).replace(" ", "T")`; a `date` as `str(value)`;
a `time` as `"T" + str(value)`.  (No widget class of the file is an instance
of both `TimeInput` and `DateInput`, so the two sequential `if` statements of
the source are rendered as an if/else chain.) -/
def serializeMixinValue (cls : WidgetClass) (v : AttrValue) : AttrValue :=
  match v with
  | .vdatetime dt =>
      let s :=
        if widgetIsSubclass cls .TimeInput then "T" ++ pyTimeStr dt.time
        else if widgetIsSubclass cls .DateInput then pyDateStr dt.date
        else pyDateTimeStr dt
      .vstr (replaceSpaceT s)
  | .vdate d => .vstr (pyDateStr d)
  | .vtime t => .vstr ("T" ++ pyTimeStr t)
  | other => other

/-- The loop body of `DojoWidgetMixin._mixin_attr` over the split key: at the
terminal segment the value is serialized and stored unless the slot already
holds something other than `None`; at a non-terminal segment an absent key
receives a fresh nested dict, an existing dict is descended into, and any
other existing value makes the next Python iteration raise (embedded as
`Except.error`). -/
def mixinGo (cls : WidgetClass) (value : AttrValue) :
    List String → AttrDict → Except String AttrDict
  | [], d => .ok d
  | [k], d =>
      match dictGet d k with
      | none => .ok (dictSet d k (serializeMixinValue cls value))
      | some .vnone => .ok (dictSet d k (serializeMixinValue cls value))
      | some _ => .ok d
  | k :: k2 :: rest, d =>
      match dictGet d k with
      | none =>
          (mixinGo cls value (k2 :: rest) []).map (fun inner => dictSet d k (.vdict inner))
      | some (.vdict inner) =>
          (mixinGo cls value (k2 :: rest) inner).map (fun inner2 => dictSet d k (.vdict inner2))
      | some _ => .error "AttributeError"

/-- `DojoWidgetMixin._mixin_attr(attrs, key, value)`: split the dotted key and
merge the value at the resulting nested path. -/
def mixin_attr (cls : WidgetClass) (attrs : AttrDict) (key : String) (value : AttrValue) :
    Except String AttrDict :=
  mixinGo cls value (pySplitDot key) attrs

/-- Nested lookup along a segment path, used to state properties of
`mixin_attr` (not part of the source). -/
def dictGetPath : AttrDict → List String → Option AttrValue
  | _, [] => none
  | d, [k] => dictGet d k
  | d, k :: k2 :: rest =>
      match dictGet d k with
      | some (.vdict inner) => dictGetPath inner (k2 :: rest)
      | _ => none

/-- The `for i in self.valid_extra_attrs` loop of `build_attrs`: for each
concern, look up its value in the extra-attribute bundle and its target path
in the (already merged) field-attribute map, and mix it in when both are
present; otherwise skip the concern. -/
def mixinConcerns (cls : WidgetClass) (fmap : List (String × String)) (efa : AttrDict) :
    List String → AttrDict → Except String AttrDict
  | [], attrs => .ok attrs
  | c :: rest, attrs =>
      match pyGet efa c, dictGet fmap c with
      | some fv, some target =>
          match mixin_attr cls attrs target fv with
          | .ok attrs2 => mixinConcerns cls fmap efa rest attrs2
          | .error e => .error e
      | _, _ => mixinConcerns cls fmap efa rest attrs

/-- Modelled from the spec: `json_encode` (defined in `dojango/util`, which is
not part of the provided sources) serializes the Python booleans to the
lowercase tokens the client toolkit expects. -/
def json_encode_bool (b : Bool) : String :=
  if b then "true" else "false"

/-- One step of the final pass of `build_attrs`:
`if isinstance(attrs[i], bool): attrs[i] = json_encode(attrs[i])`. -/
def encodeVal : AttrValue → AttrValue
  | .vbool b => .vstr (json_encode_bool b)
  | v => v

/-- The final pass of `build_attrs`: every top-level boolean value of the bag
is replaced by its `json_encode` rendering (the loop iterates over the keys of
`attrs` only, so nested dictionaries are not visited). -/
def encodeBools (d : AttrDict) : AttrDict :=
  d.map (fun kv => (kv.1, encodeVal kv.2))

/-- The attribute bag assembled by `build_attrs` before the extra-attribute
mixing: `attrs = dict(self.attrs, **kwargs)`, then `attrs.update(extra_attrs)`
when `extra_attrs` is truthy, then the `dojoType` assignment when the class
declares a truthy `dojo_type`. -/
def preMixAttrs (cls : WidgetClass) (selfAttrs : AttrDict) (extraAttrs : Option AttrDict)
    (kwargs : AttrDict) : AttrDict :=
  let attrs := pyUpdate selfAttrs kwargs
  let attrs :=
    match extraAttrs with
    | some e => if e.isEmpty then attrs else pyUpdate attrs e
    | none => attrs
  match dojo_type cls with
  | some t => dictSet attrs "dojoType" (.vstr t)
  | none => attrs

/-- The body of `build_attrs` once the merged field-attribute map `fmap` is
fixed: when the bag holds a truthy `extra_field_attrs` entry, mix in the
allow-listed concerns and delete the bundle (a truthy non-dict bundle makes
the first `extra_field_attrs.get(i, None)` of a non-empty loop raise); finally
encode the top-level booleans.  The `dojo_collector` registry side effect has
no influence on the returned bag and is not modelled. -/
def buildAttrsCore (cls : WidgetClass) (fmap : List (String × String)) (selfAttrs : AttrDict)
    (extraAttrs : Option AttrDict) (kwargs : AttrDict) : Except String AttrDict :=
  let attrs := preMixAttrs cls selfAttrs extraAttrs kwargs
  match dictGet attrs "extra_field_attrs" with
  | some efaVal =>
      if truthy efaVal then
        match efaVal, valid_extra_attrs cls with
        | _, [] => .ok (encodeBools (dictDel attrs "extra_field_attrs"))
        | .vdict efa, concerns =>
            (mixinConcerns cls fmap efa concerns attrs).map
              (fun attrs2 => encodeBools (dictDel attrs2 "extra_field_attrs"))
        | _, _ :: _ => .error "AttributeError"
      else .ok (encodeBools attrs)
  | none => .ok (encodeBools attrs)

/-- `DojoWidgetMixin.build_attrs(extra_attrs, **kwargs)` on an instance of
`cls` whose instance attribute dictionary is `selfAttrs`, with the shared
class-level map mutation made explicit:
`self.default_field_attr_map.update(self.field_attr_map)` is performed on the
incoming state and the updated map is both used for the mixing and returned as
the new state. -/
def build_attrs (cls : WidgetClass) (selfAttrs : AttrDict) (extraAttrs : Option AttrDict)
    (kwargs : AttrDict) (st : MixState) : Except String (AttrDict × MixState) :=
  let newMap := pyUpdate st.default_field_attr_map (field_attr_map cls)
  (buildAttrsCore cls newMap selfAttrs extraAttrs kwargs).map (fun bag => (bag, ⟨newMap⟩))

/-- The Django model-field classes referenced by `MODEL_TO_FORM_FIELD_MAP`,
together with the bases needed for `isinstance` dispatch.  These classes come
from the external framework (`django.db.models.fields`), which the repository
only consumes. -/
inductive DjField : Type where
  | Field
  | CharField
  | CommaSeparatedIntegerField
  | EmailField
  | SlugField
  | URLField
  | DateField
  | DateTimeField
  | TimeField
  | DecimalField
  | FloatField
  | FilePathField
  | BooleanField
  | NullBooleanField
  | IntegerField
  | PositiveIntegerField
  | PositiveSmallIntegerField
  | SmallIntegerField
  | AutoField
  | TextField
  | FileField
  | ImageField
  | GenericIPAddressField
  | ForeignKey
  | ManyToManyField
  | OneToOneField
deriving DecidableEq, Repr

/-- Class ancestry in the external framework (each list is the class followed
by its bases): `CommaSeparatedIntegerField`, `EmailField`, `SlugField` and
`URLField` subclass `CharField`; `DateTimeField` subclasses `DateField`;
`ImageField` subclasses `FileField`; the three sized integer fields subclass
`IntegerField`; `OneToOneField` subclasses `ForeignKey`; everything else
derives directly from `Field`. -/
def djAncestors : DjField → List DjField
  | .Field => [.Field]
  | .CharField => [.CharField, .Field]
  | .CommaSeparatedIntegerField => [.CommaSeparatedIntegerField, .CharField, .Field]
  | .EmailField => [.EmailField, .CharField, .Field]
  | .SlugField => [.SlugField, .CharField, .Field]
  | .URLField => [.URLField, .CharField, .Field]
  | .DateField => [.DateField, .Field]
  | .DateTimeField => [.DateTimeField, .DateField, .Field]
  | .TimeField => [.TimeField, .Field]
  | .DecimalField => [.DecimalField, .Field]
  | .FloatField => [.FloatField, .Field]
  | .FilePathField => [.FilePathField, .Field]
  | .BooleanField => [.BooleanField, .Field]
  | .NullBooleanField => [.NullBooleanField, .Field]
  | .IntegerField => [.IntegerField, .Field]
  | .PositiveIntegerField => [.PositiveIntegerField, .IntegerField, .Field]
  | .PositiveSmallIntegerField => [.PositiveSmallIntegerField, .IntegerField, .Field]
  | .SmallIntegerField => [.SmallIntegerField, .IntegerField, .Field]
  | .AutoField => [.AutoField, .Field]
  | .TextField => [.TextField, .Field]
  | .FileField => [.FileField, .Field]
  | .ImageField => [.ImageField, .FileField, .Field]
  | .GenericIPAddressField => [.GenericIPAddressField, .Field]
  | .ForeignKey => [.ForeignKey, .Field]
  | .ManyToManyField => [.ManyToManyField, .Field]
  | .OneToOneField => [.OneToOneField, .ForeignKey, .Field]

/-- Python `isinstance(field, parent)` for an instance of exact class `cls`. -/
def djIsSubclass (cls parent : DjField) : Bool :=
  (djAncestors cls).contains parent

/-- The dojango form-field classes appearing as second components of the
mapping rules (defined in `dojango/forms/fields.py` and `models.py`). -/
inductive FormFieldClass : Type where
  | CharField
  | DateTimeField
  | DateField
  | DecimalField
  | EmailField
  | FilePathField
  | FloatField
  | ModelChoiceField
  | ImageField
  | FileField
  | GenericIPAddressField
  | ModelMultipleChoiceField
  | BooleanField
  | IntegerField
  | SlugField
  | TimeField
  | URLField
deriving DecidableEq, Repr

/-- A widget argument as it can reach `field.formfield`: either a widget class
out of a three-element mapping rule, the `Select` instance constructed for
choice fields (carrying its constructor attribute dictionary), or an arbitrary
widget supplied by the caller through `kwargs`. -/
inductive WidgetSpec : Type where
  | widgetClass (w : WidgetClass)
  | selectInstance (attrs : AttrDict)
  | callerWidget (tag : String)

/-- One entry of `MODEL_TO_FORM_FIELD_MAP`:
`(model_field, form_field, [optional widget])`. -/
structure MapRule where
  model_field : DjField
  form_field : FormFieldClass
  widget : Option WidgetClass
deriving DecidableEq, Repr

/-- The ordered rule table of `dojango/forms/models.py`. -/
def MODEL_TO_FORM_FIELD_MAP : List MapRule :=
  [ ⟨.CommaSeparatedIntegerField, .CharField, none⟩,
    ⟨.DateTimeField, .DateTimeField, none⟩,
    ⟨.DateField, .DateField, none⟩,
    ⟨.DecimalField, .DecimalField, none⟩,
    ⟨.EmailField, .EmailField, none⟩,
    ⟨.FilePathField, .FilePathField, none⟩,
    ⟨.FloatField, .FloatField, none⟩,
    ⟨.ForeignKey, .ModelChoiceField, none⟩,
    ⟨.ImageField, .ImageField, none⟩,
    ⟨.FileField, .FileField, none⟩,
    ⟨.GenericIPAddressField, .GenericIPAddressField, none⟩,
    ⟨.ManyToManyField, .ModelMultipleChoiceField, none⟩,
    ⟨.NullBooleanField, .CharField, none⟩,
    ⟨.BooleanField, .BooleanField, none⟩,
    ⟨.PositiveSmallIntegerField, .IntegerField, none⟩,
    ⟨.PositiveIntegerField, .IntegerField, none⟩,
    ⟨.SlugField, .SlugField, none⟩,
    ⟨.SmallIntegerField, .IntegerField, none⟩,
    ⟨.IntegerField, .IntegerField, none⟩,
    ⟨.TimeField, .TimeField, none⟩,
    ⟨.URLField, .URLField, none⟩,
    ⟨.TextField, .CharField, some .Textarea⟩,
    ⟨.CharField, .CharField, none⟩ ]

/-- A model field descriptor as `formfield_function` consumes it: its exact
runtime class together with the attributes the function reads (`choices`
truthiness, the `blank` flag and the help text). -/
structure ModelField where
  cls : DjField
  choices : Bool
  blank : Bool
  help_text : String

/-- The keyword arguments a caller passes to `formfield_function`: a possible
`widget` entry (which `defaults.update(kwargs)` lets override the chosen
widget) and the remaining entries, passed through verbatim. -/
structure FormfieldKwargs where
  widget : Option WidgetSpec
  rest : List (String × String)

/-- The outcome of a `field.formfield(...)` call, recording the `form_class`
override (or its absence), the widget argument, and the remaining keyword
arguments. -/
structure FormFieldResult where
  form_class : Option FormFieldClass
  widget : Option WidgetSpec
  rest : List (String × String)

/-- Model of the framework fallback `field.formfield(**kwargs)`: no
`form_class` override is passed and the caller's keyword arguments are
forwarded untouched. -/
def field_formfield_default (kwargs : FormfieldKwargs) : FormFieldResult :=
  { form_class := none, widget := kwargs.widget, rest := kwargs.rest }

/-- Model of `field.formfield(form_class=..., **defaults)` on the matched
branch of `formfield_function`. -/
def field_formfield_call (form : FormFieldClass) (widget : Option WidgetSpec)
    (rest : List (String × String)) : FormFieldResult :=
  { form_class := some form, widget := widget, rest := rest }

/-- The `Select` widget built for a choice field:
`Select(attrs={"extra_field_attrs": {"required": not field.blank,
"help_text": field.help_text}})`. -/
def choicesSelectWidget (field : ModelField) : WidgetSpec :=
  .selectInstance
    [ ("extra_field_attrs",
        .vdict [ ("required", .vbool (!field.blank)),
                 ("help_text", .vstr field.help_text) ]) ]

/-- The `defaults["widget"]` entry computed on the matched branch of
`formfield_function`: the choice-field `Select` when `field.choices` is
truthy, otherwise the widget of a three-element rule, otherwise nothing. -/
def formfield_defaults_widget (field : ModelField) (rule : MapRule) : Option WidgetSpec :=
  if field.choices then some (choicesSelectWidget field)
  else
    match rule.widget with
    | some w => some (.widgetClass w)
    | none => none

/-- The `for field_map in MODEL_TO_FORM_FIELD_MAP` loop of
`formfield_function`: the first rule whose model-field class the field is an
instance of wins; `defaults.update(kwargs)` lets a caller-supplied widget
override the computed one; when no rule matches, the framework default is
returned. -/
def formfield_loop (field : ModelField) (kwargs : FormfieldKwargs) :
    List MapRule → FormFieldResult
  | [] => field_formfield_default kwargs
  | rule :: rest =>
      if djIsSubclass field.cls rule.model_field then
        field_formfield_call rule.form_field
          (match kwargs.widget with
           | some w => some w
           | none => formfield_defaults_widget field rule)
          kwargs.rest
      else formfield_loop field kwargs rest

/-- `formfield_function(field, **kwargs)` of `dojango/forms/models.py`. -/
def formfield_function (field : ModelField) (kwargs : FormfieldKwargs) : FormFieldResult :=
  formfield_loop field kwargs MODEL_TO_FORM_FIELD_MAP

/-! Helper lemmas about the dictionary operations and the two embedded
functions.  These are shared infrastructure, not claim theorems. -/

/-- Rewriting a key to the value it already holds leaves the dictionary
unchanged. -/
theorem dictSet_self {α : Type} :
    ∀ (d : List (String × α)) (k : String) (v : α),
      dictGet d k = some v → dictSet d k v = d := by
  intro d
  induction d with
  | nil => intro k v h; simp [dictGet] at h
  | cons kv rest ih =>
    intro k v h
    obtain ⟨k', v'⟩ := kv
    by_cases hk : k' = k
    · subst hk
      simp [dictGet] at h
      simp [dictSet, h]
    · simp [dictGet, hk] at h
      simp [dictSet, hk, ih k v h]

/-- Setting the same binding twice is the same as setting it once. -/
theorem dictSet_set_same {α : Type} :
    ∀ (d : List (String × α)) (k : String) (v : α),
      dictSet (dictSet d k v) k v = dictSet d k v := by
  intro d
  induction d with
  | nil => intro k v; simp [dictSet]
  | cons kv rest ih =>
    intro k v
    obtain ⟨k', v'⟩ := kv
    by_cases hk : k' = k
    · simp [dictSet, hk]
    · simp [dictSet, hk, ih]

/-- A deleted key is absent. -/
theorem dictGet_dictDel {α : Type} (d : List (String × α)) (k : String) :
    dictGet (dictDel d k) k = none := by
  induction d with
  | nil => rfl
  | cons kv rest ih =>
    obtain ⟨k', v'⟩ := kv
    by_cases hk : k' = k
    · simpa [dictDel, List.filter_cons, hk] using ih
    · simpa [dictDel, List.filter_cons, hk, dictGet] using ih

/-- Lookup in the boolean-encoded bag is the encoded lookup. -/
theorem encodeBools_get (d : AttrDict) (k : String) :
    dictGet (encodeBools d) k = (dictGet d k).map encodeVal := by
  induction d with
  | nil => rfl
  | cons kv rest ih =>
    obtain ⟨k', v⟩ := kv
    by_cases hk : k' = k
    · simp [encodeBools, dictGet, hk]
    · simpa [encodeBools, dictGet, hk] using ih

/-- The boolean encoder never returns a raw boolean. -/
theorem encodeVal_ne_vbool (v : AttrValue) (b : Bool) : encodeVal v ≠ .vbool b := by
  cases v <;> simp [encodeVal]

/-- Applying the class-level map update of `build_attrs` twice in a row is the
same as applying it once (each shipped `field_attr_map` has at most one
entry). -/
theorem pyUpdate_fam_idem (cls : WidgetClass) (m : List (String × String)) :
    pyUpdate (pyUpdate m (field_attr_map cls)) (field_attr_map cls)
      = pyUpdate m (field_attr_map cls) := by
  cases cls <;> simp [field_attr_map, pyUpdate, dictSet_set_same]

/-- Walking `_mixin_attr` along a path whose leaf is already occupied by a
value other than `None` returns the dictionary unchanged. -/
theorem mixinGo_occupied (cls : WidgetClass) (v : AttrValue) :
    ∀ (path : List String) (attrs : AttrDict) (w : AttrValue),
      dictGetPath attrs path = some w → w ≠ AttrValue.vnone →
      mixinGo cls v path attrs = .ok attrs := by
  intro path
  induction path with
  | nil => intro attrs w h hw; simp [dictGetPath] at h
  | cons k rest ih =>
    intro attrs w h hw
    cases rest with
    | nil =>
      simp [dictGetPath] at h
      cases w <;> simp [mixinGo, h]
      exact absurd rfl hw
    | cons k2 rest2 =>
      cases hd : dictGet attrs k with
      | none => simp [dictGetPath, hd] at h
      | some inner0 =>
        cases inner0 with
        | vdict inner =>
          simp only [dictGetPath, hd] at h
          simp only [mixinGo, hd, ih inner w h hw, Except.map]
          rw [dictSet_self attrs k (.vdict inner) hd]
        | vstr s => simp [dictGetPath, hd] at h
        | vint n => simp [dictGetPath, hd] at h
        | vbool b => simp [dictGetPath, hd] at h
        | vdate d => simp [dictGetPath, hd] at h
        | vtime t => simp [dictGetPath, hd] at h
        | vdatetime dt => simp [dictGetPath, hd] at h
        | vnone => simp [dictGetPath, hd] at h

/-- The dispatch loop of `formfield_function` agrees with `List.find?` over
the rule table. -/
theorem formfield_loop_find (field : ModelField) (kwargs : FormfieldKwargs) :
    ∀ rules : List MapRule,
      formfield_loop field kwargs rules =
        match rules.find? (fun r => djIsSubclass field.cls r.model_field) with
        | some rule =>
            field_formfield_call rule.form_field
              (match kwargs.widget with
               | some w => some w
               | none => formfield_defaults_widget field rule)
              kwargs.rest
        | none => field_formfield_default kwargs := by
  intro rules
  induction rules with
  | nil => rfl
  | cons rule rest ih =>
    cases h : djIsSubclass field.cls rule.model_field with
    | true => simp [formfield_loop, List.find?_cons, h]
    | false => simp [formfield_loop, List.find?_cons, h, ih]

/-! Claim theorems. -/

/-- C1: for every model field, `formfield_function` scans
`MODEL_TO_FORM_FIELD_MAP` in order and constructs the form field with the
form-field class of the first rule whose model-field class the field is an
instance of (subclass instances match); when no rule matches it returns the
framework's default formfield for the field, passing the caller's keyword
arguments through with no override. -/
theorem c1_formfield_first_match (field : ModelField) (kwargs : FormfieldKwargs) :
    match MODEL_TO_FORM_FIELD_MAP.find? (fun r => djIsSubclass field.cls r.model_field) with
    | some rule => (formfield_function field kwargs).form_class = some rule.form_field
    | none => formfield_function field kwargs = field_formfield_default kwargs := by
  cases hf : MODEL_TO_FORM_FIELD_MAP.find? (fun r => djIsSubclass field.cls r.model_field) with
  | some rule =>
    rw [formfield_function, formfield_loop_find field kwargs, hf]
    rfl
  | none =>
    rw [formfield_function, formfield_loop_find field kwargs, hf]

/-- C2: for any two rules `(A, _)` preceding `(B, _)` in
`MODEL_TO_FORM_FIELD_MAP` with model-field class `A` a subclass of
model-field class `B`, `formfield_function` on an instance of `A` resolves to
rule `A`'s form-field mapping and never to rule `B`'s; this is proved for
every such pair of positions in the shipped table. -/
theorem c2_rule_order (i j : Fin MODEL_TO_FORM_FIELD_MAP.length)
    (field : ModelField) (kwargs : FormfieldKwargs)
    (hij : i < j)
    (hsub : djIsSubclass (MODEL_TO_FORM_FIELD_MAP.get i).model_field
        (MODEL_TO_FORM_FIELD_MAP.get j).model_field = true)
    (hcls : field.cls = (MODEL_TO_FORM_FIELD_MAP.get i).model_field) :
    (formfield_function field kwargs).form_class
      = some (MODEL_TO_FORM_FIELD_MAP.get i).form_field := by
  have key : ∀ i j : Fin MODEL_TO_FORM_FIELD_MAP.length, i < j →
      djIsSubclass (MODEL_TO_FORM_FIELD_MAP.get i).model_field
          (MODEL_TO_FORM_FIELD_MAP.get j).model_field = true →
      MODEL_TO_FORM_FIELD_MAP.find?
          (fun r => djIsSubclass (MODEL_TO_FORM_FIELD_MAP.get i).model_field r.model_field)
        = some (MODEL_TO_FORM_FIELD_MAP.get i) := by decide
  have hfind := key i j hij hsub
  rw [formfield_function, formfield_loop_find field kwargs, hcls, hfind]
  rfl

/-- Witness for C2 at the concrete pair `DateTimeField` (position 1) before
its superclass `DateField` (position 2). -/
theorem c2_rule_order_witness :
    ((⟨1, by decide⟩ : Fin MODEL_TO_FORM_FIELD_MAP.length) < ⟨2, by decide⟩
  ∧ djIsSubclass (MODEL_TO_FORM_FIELD_MAP.get ⟨1, by decide⟩).model_field
      (MODEL_TO_FORM_FIELD_MAP.get ⟨2, by decide⟩).model_field = true)
  ∧ (formfield_function ⟨DjField.DateTimeField, false, false, "h"⟩ ⟨none, []⟩).form_class
      = some (MODEL_TO_FORM_FIELD_MAP.get ⟨1, by decide⟩).form_field :=
  ⟨⟨by decide, by decide⟩,
    c2_rule_order ⟨1, by decide⟩ ⟨2, by decide⟩ ⟨DjField.DateTimeField, false, false, "h"⟩
      ⟨none, []⟩ (by decide) (by decide) rfl⟩

/-- C3: for every model field that declares choices and matches a rule (any
rule, including the three-element `TextField` rule), `formfield_function`
constructs a `Select` widget whose constructor receives exactly the extra
validation attributes `required` and `help_text`; the choices check precedes
and wins over a three-element rule's widget. -/
theorem c3_choices_select (field : ModelField) (kwargs : FormfieldKwargs) (rule : MapRule)
    (hch : field.choices = true)
    (hfind : MODEL_TO_FORM_FIELD_MAP.find? (fun r => djIsSubclass field.cls r.model_field)
        = some rule)
    (hkw : kwargs.widget = none) :
    (formfield_function field kwargs).widget
      = some (.selectInstance
          [ ("extra_field_attrs",
              .vdict [ ("required", .vbool (!field.blank)),
                       ("help_text", .vstr field.help_text) ]) ]) := by
  rw [formfield_function, formfield_loop_find field kwargs, hfind]
  simp [field_formfield_call, hkw, formfield_defaults_widget, hch, choicesSelectWidget]

/-- Witness for C3: a `TextField` with choices hits the three-element rule
`(TextField, CharField, Textarea)` and still receives the `Select` widget with
exactly the `required` and `help_text` extras. -/
theorem c3_choices_select_witness :
    ((⟨DjField.TextField, true, false, "help"⟩ : ModelField).choices = true
  ∧ MODEL_TO_FORM_FIELD_MAP.find?
      (fun r => djIsSubclass (⟨DjField.TextField, true, false, "help"⟩ : ModelField).cls r.model_field)
      = some ⟨DjField.TextField, FormFieldClass.CharField, some WidgetClass.Textarea⟩)
  ∧ (formfield_function ⟨DjField.TextField, true, false, "help"⟩ ⟨none, []⟩).widget
      = some (.selectInstance
          [ ("extra_field_attrs",
              .vdict [ ("required", .vbool true), ("help_text", .vstr "help") ]) ]) :=
  ⟨⟨rfl, by decide⟩,
    c3_choices_select ⟨DjField.TextField, true, false, "help"⟩ ⟨none, []⟩
      ⟨DjField.TextField, FormFieldClass.CharField, some WidgetClass.Textarea⟩
      rfl (by decide) rfl⟩

/-- C4: `_mixin_attr` splits the target path on dots, creates a nested
mapping for each absent non-terminal segment, and stores the value at the
terminal segment only if nothing other than `None` already occupies that
leaf (first-writer-wins); in particular `constraints.min` with value 5 on an
empty bag yields the nested structure, and a later `constraints.max` merges
into the same structure without overwriting `min`. -/
theorem c4_mixin_attr_paths :
    (∀ (cls : WidgetClass) (attrs : AttrDict) (key : String) (v w : AttrValue),
        dictGetPath attrs (pySplitDot key) = some w → w ≠ AttrValue.vnone →
        mixin_attr cls attrs key v = .ok attrs)
  ∧ mixin_attr .NumberTextInput [] "constraints.min" (.vint 5)
      = .ok [("constraints", .vdict [("min", .vint 5)])]
  ∧ mixin_attr .NumberTextInput [("constraints", .vdict [("min", .vint 5)])]
        "constraints.max" (.vint 7)
      = .ok [("constraints", .vdict [("min", .vint 5), ("max", .vint 7)])] := by
  refine ⟨?_, rfl, rfl⟩
  intro cls attrs key v w h hw
  exact mixinGo_occupied cls v (pySplitDot key) attrs w h hw

/-- Witness for C4: an occupied leaf really wins over a later write. -/
theorem c4_mixin_attr_paths_witness :
    dictGetPath [("constraints", .vdict [("min", .vint 5)])] (pySplitDot "constraints.min")
      = some (.vint 5)
  ∧ mixin_attr .NumberTextInput [("constraints", .vdict [("min", .vint 5)])]
        "constraints.min" (.vint 9)
      = .ok [("constraints", .vdict [("min", .vint 5)])] :=
  ⟨rfl,
    c4_mixin_attr_paths.1 .NumberTextInput [("constraints", .vdict [("min", .vint 5)])]
      "constraints.min" (.vint 9) (.vint 5) rfl (fun h => AttrValue.noConfusion h)⟩

/-- C5: `_mixin_attr` stores dates as `YYYY-MM-DD`, times as a literal `T`
followed by `HH:MM:SS`, and datetimes as an ISO-like string with `T`
separating date and time; in particular the datetime 2024-03-05 00:00:00
yields `2024-03-05` on the pure-date widgets (`DateInput`, also inherited by
`DateInputAnim`) and `T00:00:00` on the pure-time widget `TimeInput`. -/
theorem c5_date_time_serialization :
    (∀ (cls : WidgetClass) (d : PyDate),
        mixin_attr cls [] "v" (.vdate d) = .ok [("v", .vstr (pyDateStr d))])
  ∧ (∀ (cls : WidgetClass) (t : PyTime),
        mixin_attr cls [] "v" (.vtime t) = .ok [("v", .vstr ("T" ++ pyTimeStr t))])
  ∧ mixin_attr .Select [] "v" (.vdatetime ⟨⟨2024, 3, 5⟩, ⟨0, 0, 0⟩⟩)
      = .ok [("v", .vstr "2024-03-05T00:00:00")]
  ∧ mixin_attr .DateInput [] "v" (.vdatetime ⟨⟨2024, 3, 5⟩, ⟨0, 0, 0⟩⟩)
      = .ok [("v", .vstr "2024-03-05")]
  ∧ mixin_attr .DateInputAnim [] "v" (.vdatetime ⟨⟨2024, 3, 5⟩, ⟨0, 0, 0⟩⟩)
      = .ok [("v", .vstr "2024-03-05")]
  ∧ mixin_attr .TimeInput [] "v" (.vdatetime ⟨⟨2024, 3, 5⟩, ⟨0, 0, 0⟩⟩)
      = .ok [("v", .vstr "T00:00:00")] := by
  refine ⟨?_, ?_, rfl, rfl, rfl, rfl⟩
  · intro cls d; rfl
  · intro cls t; rfl

/-- Every successful `buildAttrsCore` run returns a boolean-encoded bag. -/
theorem buildAttrsCore_encodes (cls : WidgetClass) (fmap : List (String × String))
    (selfAttrs : AttrDict) (extraAttrs : Option AttrDict) (kwargs : AttrDict) (bag : AttrDict)
    (h : buildAttrsCore cls fmap selfAttrs extraAttrs kwargs = .ok bag) :
    ∃ d, bag = encodeBools d := by
  simp only [buildAttrsCore] at h
  cases hefa : dictGet (preMixAttrs cls selfAttrs extraAttrs kwargs) "extra_field_attrs" with
  | none =>
    simp only [hefa] at h
    exact ⟨_, (Except.ok.inj h).symm⟩
  | some efaVal =>
    simp only [hefa] at h
    by_cases htr : truthy efaVal = true
    · rw [if_pos htr] at h
      cases hval : valid_extra_attrs cls with
      | nil =>
        rw [hval] at h
        cases efaVal <;> exact ⟨_, (Except.ok.inj h).symm⟩
      | cons c cs =>
        rw [hval] at h
        cases efaVal with
        | vdict efa =>
          simp only [] at h
          cases hm : mixinConcerns cls fmap efa (c :: cs)
              (preMixAttrs cls selfAttrs extraAttrs kwargs) with
          | error e => rw [hm] at h; simp [Except.map] at h
          | ok a2 => rw [hm] at h; exact ⟨_, (Except.ok.inj h).symm⟩
        | vstr s => simp at h
        | vint n => simp at h
        | vbool b => simp at h
        | vdate d => simp at h
        | vtime t => simp at h
        | vdatetime dt => simp at h
        | vnone => simp at h
    · rw [if_neg htr] at h
      exact ⟨_, (Except.ok.inj h).symm⟩

/-- A successful `build_attrs` run comes from `buildAttrsCore` over the
updated field-attribute map, and the new state holds exactly that map. -/
theorem build_attrs_ok (cls : WidgetClass) (selfAttrs : AttrDict) (extraAttrs : Option AttrDict)
    (kwargs : AttrDict) (st : MixState) (bag : AttrDict) (st' : MixState)
    (h : build_attrs cls selfAttrs extraAttrs kwargs st = .ok (bag, st')) :
    buildAttrsCore cls (pyUpdate st.default_field_attr_map (field_attr_map cls))
        selfAttrs extraAttrs kwargs = .ok bag
  ∧ st' = ⟨pyUpdate st.default_field_attr_map (field_attr_map cls)⟩ := by
  simp only [build_attrs] at h
  cases hc : buildAttrsCore cls (pyUpdate st.default_field_attr_map (field_attr_map cls))
      selfAttrs extraAttrs kwargs with
  | error e => rw [hc] at h; simp [Except.map] at h
  | ok b =>
    rw [hc] at h
    simp only [Except.map] at h
    injection h with h1
    injection h1 with hb hst
    exact ⟨by rw [hb], hst.symm⟩

/-- When a truthy bundle is present after the attribute merge, every
successful `buildAttrsCore` run deletes it before returning. -/
theorem buildAttrsCore_consumes (cls : WidgetClass) (fmap : List (String × String))
    (selfAttrs : AttrDict) (extraAttrs : Option AttrDict) (kwargs : AttrDict) (bag : AttrDict)
    (htr : truthyOpt (dictGet (preMixAttrs cls selfAttrs extraAttrs kwargs) "extra_field_attrs")
        = true)
    (h : buildAttrsCore cls fmap selfAttrs extraAttrs kwargs = .ok bag) :
    dictGet bag "extra_field_attrs" = none := by
  simp only [buildAttrsCore] at h
  cases hefa : dictGet (preMixAttrs cls selfAttrs extraAttrs kwargs) "extra_field_attrs" with
  | none => rw [hefa] at htr; simp [truthyOpt] at htr
  | some efaVal =>
    simp only [hefa] at h
    rw [hefa] at htr
    simp only [truthyOpt] at htr
    rw [if_pos htr] at h
    cases hval : valid_extra_attrs cls with
    | nil =>
      rw [hval] at h
      cases efaVal <;>
        rw [(Except.ok.inj h).symm, encodeBools_get, dictGet_dictDel] <;> rfl
    | cons c cs =>
      rw [hval] at h
      cases efaVal with
      | vdict efa =>
        simp only [] at h
        cases hm : mixinConcerns cls fmap efa (c :: cs)
            (preMixAttrs cls selfAttrs extraAttrs kwargs) with
        | error e => rw [hm] at h; simp [Except.map] at h
        | ok a2 =>
          rw [hm] at h
          rw [(Except.ok.inj h).symm, encodeBools_get, dictGet_dictDel]
          rfl
      | vstr s => simp at h
      | vint n => simp at h
      | vbool b => simp at h
      | vdate d => simp at h
      | vtime t => simp at h
      | vdatetime dt => simp at h
      | vnone => simp at h

/-- C6 counterexample: the final normalization pass of `build_attrs` only
visits the top level of the bag, so a native boolean nested inside a
sub-mapping is returned unserialized. -/
theorem c6_nested_bool_counterexample :
    build_attrs .Textarea [("constraints", .vdict [("ok", .vbool true)])] none [] initMixState
      = .ok ([("constraints", .vdict [("ok", .vbool true)]),
              ("dojoType", .vstr "dijit.form.Textarea")], initMixState)
  ∧ dictGetPath [("constraints", .vdict [("ok", .vbool true)]),
        ("dojoType", .vstr "dijit.form.Textarea")] ["constraints", "ok"]
      = some (.vbool true) :=
  ⟨rfl, rfl⟩

/-- C6 (amended): after the final normalization pass of `build_attrs`, every
top-level native boolean of the returned bag is serialized to the lowercase
token `true` or `false`; booleans nested inside dotted-path sub-mappings are
not visited and are returned unchanged. -/
theorem c6_top_level_bool_encoding (cls : WidgetClass) (selfAttrs : AttrDict)
    (extraAttrs : Option AttrDict) (kwargs : AttrDict) (st : MixState)
    (bag : AttrDict) (st' : MixState)
    (h : build_attrs cls selfAttrs extraAttrs kwargs st = .ok (bag, st')) :
    (∀ (k : String) (b : Bool), dictGet bag k ≠ some (.vbool b))
  ∧ build_attrs .Textarea [("a", .vbool true), ("b", .vbool false)] none [] initMixState
      = .ok ([("a", .vstr "true"), ("b", .vstr "false"),
              ("dojoType", .vstr "dijit.form.Textarea")], initMixState) := by
  constructor
  · have hcore := (build_attrs_ok cls selfAttrs extraAttrs kwargs st bag st' h).1
    obtain ⟨d, hd⟩ := buildAttrsCore_encodes cls
      (pyUpdate st.default_field_attr_map (field_attr_map cls)) selfAttrs extraAttrs kwargs bag hcore
    intro k b
    rw [hd, encodeBools_get]
    cases hgd : dictGet d k with
    | none => simp
    | some v => simpa using encodeVal_ne_vbool v b
  · rfl

/-- Witness for the amended C6 at a concrete `Textarea` run. -/
theorem c6_top_level_bool_encoding_witness :
    build_attrs .Textarea [("flag", .vbool true)] none [] initMixState
      = .ok ([("flag", .vstr "true"), ("dojoType", .vstr "dijit.form.Textarea")], initMixState)
  ∧ (∀ (k : String) (b : Bool),
      dictGet ([("flag", AttrValue.vstr "true"),
          ("dojoType", AttrValue.vstr "dijit.form.Textarea")] : AttrDict) k
        ≠ some (AttrValue.vbool b)) :=
  ⟨rfl,
    (c6_top_level_bool_encoding .Textarea [("flag", .vbool true)] none [] initMixState
      [("flag", .vstr "true"), ("dojoType", .vstr "dijit.form.Textarea")] initMixState rfl).1⟩

/-- C7: `build_attrs` raises nothing on missing data; a concern of the
allow-list whose value is absent from the extra-attribute bundle (or stored as
`None`) or whose name has no entry in the merged attribute map is skipped and
contributes nothing to the bag. -/
theorem c7_missing_concern_skipped (cls : WidgetClass) (fmap : List (String × String))
    (efa : AttrDict) (attrs : AttrDict) (c : String) (rest : List String)
    (h : pyGet efa c = none ∨ dictGet fmap c = none) :
    mixinConcerns cls fmap efa (c :: rest) attrs = mixinConcerns cls fmap efa rest attrs
  ∧ ∀ concerns : List String,
      (∀ c' ∈ concerns, pyGet efa c' = none ∨ dictGet fmap c' = none) →
      mixinConcerns cls fmap efa concerns attrs = .ok attrs := by
  constructor
  · rcases h with h | h
    · cases hf : dictGet fmap c <;> simp [mixinConcerns, h, hf]
    · cases hp : pyGet efa c <;> simp [mixinConcerns, h, hp]
  · intro concerns
    induction concerns with
    | nil => intro _; rfl
    | cons c' cs ih =>
      intro hall
      have h' := hall c' (by simp)
      have hcs : mixinConcerns cls fmap efa cs attrs = .ok attrs :=
        ih (fun x hx => hall x (by simp [hx]))
      rcases h' with h' | h'
      · cases hf : dictGet fmap c' <;> simp [mixinConcerns, h', hf, hcs]
      · cases hp : pyGet efa c' <;> simp [mixinConcerns, h', hp, hcs]

/-- Witness for C7: `Select` allow-lists `help_text`, which is absent from
the bundle, so it is skipped; a bundle missing every listed concern does not
change the bag and produces no error. -/
theorem c7_missing_concern_skipped_witness :
    (pyGet [("required", .vbool true)] "help_text" = none
      ∨ dictGet default_field_attr_map_init "help_text" = none)
  ∧ mixinConcerns .Select default_field_attr_map_init [("required", .vbool true)]
        ["help_text"] [("x", .vint 1)]
      = mixinConcerns .Select default_field_attr_map_init [("required", .vbool true)]
        [] [("x", .vint 1)]
  ∧ mixinConcerns .Select default_field_attr_map_init []
        ["required", "help_text"] [("x", .vint 1)]
      = .ok [("x", .vint 1)] :=
  ⟨Or.inl rfl,
    (c7_missing_concern_skipped .Select default_field_attr_map_init
      [("required", .vbool true)] [("x", .vint 1)] "help_text" [] (Or.inl rfl)).1,
    (c7_missing_concern_skipped .Select default_field_attr_map_init
      [] [("x", .vint 1)] "required" [] (Or.inl rfl)).2
      ["required", "help_text"] (fun _ _ => Or.inl rfl)⟩

/-- C8: with the same widget, the same extra attributes and the same keyword
arguments, two successive `build_attrs` calls (the second starting from the
state the first left behind) return identical attribute bags: the class-level
map update is idempotent, so no attribute values accumulate across calls. -/
theorem c8_build_attrs_idempotent (cls : WidgetClass) (selfAttrs : AttrDict)
    (extraAttrs : Option AttrDict) (kwargs : AttrDict) (st : MixState)
    (bag1 bag2 : AttrDict) (st1 st2 : MixState)
    (h1 : build_attrs cls selfAttrs extraAttrs kwargs st = .ok (bag1, st1))
    (h2 : build_attrs cls selfAttrs extraAttrs kwargs st1 = .ok (bag2, st2)) :
    bag1 = bag2 := by
  obtain ⟨hc1, hst1⟩ := build_attrs_ok cls selfAttrs extraAttrs kwargs st bag1 st1 h1
  obtain ⟨hc2, _⟩ := build_attrs_ok cls selfAttrs extraAttrs kwargs st1 bag2 st2 h2
  rw [hst1] at hc2
  simp only [pyUpdate_fam_idem] at hc2
  rw [hc1] at hc2
  exact Except.ok.inj hc2

/-- Witness for C8: a double `RatingInput` computation returns the same bag
twice. -/
theorem c8_build_attrs_idempotent_witness :
    build_attrs .RatingInput [("extra_field_attrs", .vdict [("max_value", .vint 5)])]
        none [] initMixState
      = .ok ([("dojoType", .vstr "dojox.form.Rating"), ("numStars", .vint 5)],
          ⟨[("required", "required"), ("help_text", "promptMessage"),
            ("min_value", "constraints.min"), ("max_value", "numStars"),
            ("max_length", "maxlength"), ("decimal_places", "constraints.places"),
            ("js_regex", "regExp"), ("multiple", "multiple")]⟩)
  ∧ ([("dojoType", .vstr "dojox.form.Rating"), ("numStars", .vint 5)] : AttrDict)
      = [("dojoType", .vstr "dojox.form.Rating"), ("numStars", .vint 5)] :=
  ⟨rfl,
    c8_build_attrs_idempotent .RatingInput
      [("extra_field_attrs", .vdict [("max_value", .vint 5)])] none [] initMixState
      [("dojoType", .vstr "dojox.form.Rating"), ("numStars", .vint 5)]
      [("dojoType", .vstr "dojox.form.Rating"), ("numStars", .vint 5)]
      ⟨[("required", "required"), ("help_text", "promptMessage"),
        ("min_value", "constraints.min"), ("max_value", "numStars"),
        ("max_length", "maxlength"), ("decimal_places", "constraints.places"),
        ("js_regex", "regExp"), ("multiple", "multiple")]⟩
      ⟨[("required", "required"), ("help_text", "promptMessage"),
        ("min_value", "constraints.min"), ("max_value", "numStars"),
        ("max_length", "maxlength"), ("decimal_places", "constraints.places"),
        ("js_regex", "regExp"), ("multiple", "multiple")]⟩
      rfl rfl⟩

/-- C9: `build_attrs` runs `self.default_field_attr_map.update(self.field_attr_map)`
on the class-level dictionary shared by every widget class, so `RatingInput`'s
remapping of `max_value` to `numStars` leaks into later computations of other
widget classes: a fresh process maps a `NumberTextInput` maximum to
`constraints.max`, but after one `RatingInput` computation the same call
stores it under `numStars` and leaves `constraints` unset. -/
theorem c9_field_attr_map_leak :
    build_attrs .RatingInput [("extra_field_attrs", .vdict [("max_value", .vint 5)])]
        none [] initMixState
      = .ok ([("dojoType", .vstr "dojox.form.Rating"), ("numStars", .vint 5)],
          ⟨[("required", "required"), ("help_text", "promptMessage"),
            ("min_value", "constraints.min"), ("max_value", "numStars"),
            ("max_length", "maxlength"), ("decimal_places", "constraints.places"),
            ("js_regex", "regExp"), ("multiple", "multiple")]⟩)
  ∧ build_attrs .NumberTextInput [("extra_field_attrs", .vdict [("max_value", .vint 10)])]
        none [] initMixState
      = .ok ([("dojoType", .vstr "dijit.form.NumberTextBox"),
              ("constraints", .vdict [("max", .vint 10)])], initMixState)
  ∧ build_attrs .NumberTextInput [("extra_field_attrs", .vdict [("max_value", .vint 10)])]
        none []
        ⟨[("required", "required"), ("help_text", "promptMessage"),
          ("min_value", "constraints.min"), ("max_value", "numStars"),
          ("max_length", "maxlength"), ("decimal_places", "constraints.places"),
          ("js_regex", "regExp"), ("multiple", "multiple")]⟩
      = .ok ([("dojoType", .vstr "dijit.form.NumberTextBox"), ("numStars", .vint 10)],
          ⟨[("required", "required"), ("help_text", "promptMessage"),
            ("min_value", "constraints.min"), ("max_value", "numStars"),
            ("max_length", "maxlength"), ("decimal_places", "constraints.places"),
            ("js_regex", "regExp"), ("multiple", "multiple")]⟩)
  ∧ dictGetPath [("dojoType", .vstr "dijit.form.NumberTextBox"), ("numStars", .vint 10)]
        ["constraints", "max"]
      = none :=
  ⟨rfl, rfl, rfl, rfl⟩

/-- C10: when the merged attributes hold a truthy `extra_field_attrs` entry,
the bag a successful `build_attrs` run returns never contains the key
`extra_field_attrs`: the bundle is consumed during mixing and deleted before
the bag is returned. -/
theorem c10_bundle_not_leaked (cls : WidgetClass) (selfAttrs : AttrDict)
    (extraAttrs : Option AttrDict) (kwargs : AttrDict) (st : MixState)
    (bag : AttrDict) (st' : MixState)
    (htr : truthyOpt (dictGet (preMixAttrs cls selfAttrs extraAttrs kwargs) "extra_field_attrs")
        = true)
    (h : build_attrs cls selfAttrs extraAttrs kwargs st = .ok (bag, st')) :
    dictGet bag "extra_field_attrs" = none :=
  buildAttrsCore_consumes cls (pyUpdate st.default_field_attr_map (field_attr_map cls))
    selfAttrs extraAttrs kwargs bag htr
    (build_attrs_ok cls selfAttrs extraAttrs kwargs st bag st' h).1

/-- Witness for C10 at a concrete `Select` run with a truthy bundle. -/
theorem c10_bundle_not_leaked_witness :
    truthyOpt (dictGet (preMixAttrs .Select
        [("extra_field_attrs", .vdict [("required", .vbool true), ("help_text", .vstr "h")])]
        none []) "extra_field_attrs") = true
  ∧ dictGet ([("dojoType", .vstr "dijit.form.FilteringSelect"), ("required", .vstr "true"),
        ("promptMessage", .vstr "h")] : AttrDict) "extra_field_attrs" = none :=
  ⟨rfl,
    c10_bundle_not_leaked .Select
      [("extra_field_attrs", .vdict [("required", .vbool true), ("help_text", .vstr "h")])]
      none [] initMixState
      [("dojoType", .vstr "dijit.form.FilteringSelect"), ("required", .vstr "true"),
       ("promptMessage", .vstr "h")]
      initMixState rfl rfl⟩
